import Mathlib

/-!
Verification of the AIPricingDynamic pricing engine and rule-based advisor.

The definitions below are a shallow embedding of the decision logic in
`src/api.py` (the `/predict` route) and `src/advisor.py` (the
`BusinessAdvisor` class).  Python floats are modelled as exact rationals;
the external regression model `model.predict` is treated as an opaque
parameter `base_price`.  Fallible Python code (float division by zero,
`float(...)` conversion errors) is modelled with `Except`.
-/

namespace AIPricing

/-- Request body of the `/predict` route (`PriceRequest` in api.py).
Monetary and percentage fields are rationals, categorical fields strings. -/
structure PriceRequest where
  costing : ℚ
  demand_level : String
  stock_availability : String
  installation_cost : ℚ
  customer_type : String
  est_competitor_cost : ℚ
  comp_markup : ℚ := 25
  our_min_margin : ℚ := 15
deriving Repr, DecidableEq

/-- Response of the `/predict` route (api.py lines 58-63, without the
presentation-only rounding to two decimals). -/
structure PredictResponse where
  base_price : ℚ
  recommended_price : ℚ
  profit_margin_percent : ℚ
  competitor_price : ℚ
deriving Repr, DecidableEq

/-- Embeds api.py lines 52-56 (identical to chatbotapp.py lines 208-212):
the competitive pricing policy applied to a request and the model output
`base_price`.  The final division raises `ZeroDivisionError` in Python when
the recommended price is zero, modelled by the `Except.error` branch. -/
def predict_price (req : PriceRequest) (base_price : ℚ) : Except String PredictResponse :=
  let competitor_price := req.est_competitor_cost * (1 + req.comp_markup / 100)
  let our_min_price := req.costing * (1 + req.our_min_margin / 100)
  let competitive_price := min base_price (competitor_price * 0.95)
  let competitive_price := max competitive_price our_min_price
  if competitive_price = 0 then
    Except.error "ZeroDivisionError: float division by zero"
  else
    Except.ok
      { base_price := base_price
        recommended_price := competitive_price
        profit_margin_percent := (competitive_price - req.costing) / competitive_price * 100
        competitor_price := competitor_price }

/-- Insertion of a string into a sorted list, used to model the canonical
sorted order pandas gives to the observed categories of an object column. -/
def insertSorted (s : String) : List String → List String
  | [] => [s]
  | x :: xs => if s ≤ x then s :: x :: xs else x :: insertSorted s xs

/-- Sorted list of the distinct values observed in a column. -/
def sortedUnique (l : List String) : List String :=
  l.dedup.foldr insertSorted []

/-- Dummy columns produced by `pd.get_dummies(..., drop_first=True)` for one
categorical column: one indicator per observed category except the first,
named `field_value`, holding 1 when the row value equals that category. -/
def dummiesFor (field : String) (categories : List String) (value : String) : List (String × ℚ) :=
  ((sortedUnique categories).drop 1).map (fun v => (field ++ "_" ++ v, if value = v then 1 else 0))

/-- Embeds api.py line 48 / chatbotapp.py line 203:
`pd.get_dummies(df, drop_first=True)` applied to the one-row frame built
from the request (api.py lines 39-46).  Numeric columns pass through; each
categorical column is dummified against the categories observed in this
frame, which for a single row is just the value of that row. -/
def get_dummies_row (req : PriceRequest) : List (String × ℚ) :=
  [("costing", req.costing), ("Installation_Cost", req.installation_cost),
   ("est_competitor_cost", req.est_competitor_cost)]
  ++ dummiesFor "Demand_Level" [req.demand_level] req.demand_level
  ++ dummiesFor "Stock_Availability" [req.stock_availability] req.stock_availability
  ++ dummiesFor "Customer_Type" [req.customer_type] req.customer_type

/-- Embeds api.py line 49: `df_encoded.reindex(columns=feature_columns,
fill_value=0)` — every requested column is taken from the frame when
present and set to 0 otherwise; column order follows `feature_columns`. -/
def reindex (feature_columns : List String) (pairs : List (String × ℚ)) : List (String × ℚ) :=
  feature_columns.map (fun c => (c, (pairs.lookup c).getD 0))

/-- The feature-alignment step of the pipeline (api.py lines 48-49). -/
def align (req : PriceRequest) (feature_columns : List String) : List (String × ℚ) :=
  reindex feature_columns (get_dummies_row req)

/-- A plausible trained-model column list (contents of model_column.pkl),
used as a concrete input for evaluating the aligner. -/
def sample_feature_columns : List String :=
  ["costing", "Installation_Cost", "est_competitor_cost",
   "Demand_Level_Low", "Demand_Level_Medium",
   "Stock_Availability_Low Stock", "Stock_Availability_Out of Stock",
   "Customer_Type_Enterprise", "Customer_Type_Government", "Customer_Type_SME"]

/-! ### The rule-based advisor (src/advisor.py) -/

/-- The literal label of the regular expression
`Profit margin: ([\d.]+)` in advisor.py lines 10 and 34. -/
def labelMargin : List Char := "Profit margin: ".data

/-- Greedy run of characters matching the class `[\d.]`. -/
def digitDotRun : List Char → List Char
  | [] => []
  | c :: cs => if c.isDigit || c == '.' then c :: digitDotRun cs else []

/-- Embeds `re.search(r'Profit margin: ([\d.]+)', context)`: the leftmost
position where the literal label is followed by at least one digit or dot,
returning the greedy group, and `none` when no position matches. -/
def searchMargin : List Char → Option (List Char)
  | [] => none
  | c :: cs =>
    if labelMargin.isPrefixOf (c :: cs) then
      let run := digitDotRun ((c :: cs).drop labelMargin.length)
      if run.isEmpty then searchMargin cs else some run
    else
      searchMargin cs

/-- Value of a digit string read in base 10. -/
def digitsVal (l : List Char) : ℕ :=
  l.foldl (fun n c => 10 * n + (c.toNat - 48)) 0

/-- Embeds Python `float(s)` on a string made of digits and dots: it
succeeds exactly when the string holds at least one digit and at most one
dot, and raises `ValueError` otherwise (modelled by `none`). -/
def pyFloat (s : List Char) : Option ℚ :=
  if s.any Char.isDigit ∧ s.count '.' ≤ 1 then
    let intPart := s.takeWhile (fun c => c ≠ '.')
    let fracPart := (s.dropWhile (fun c => c ≠ '.')).drop 1
    some (mkRat (Int.ofNat (digitsVal intPart * 10 ^ fracPart.length + digitsVal fracPart))
      (10 ^ fracPart.length))
  else
    none

/-- Python substring membership `pat in s`. -/
def strContains (s pat : String) : Bool :=
  decide (pat.data <:+: s.data)

/-- Python `s.lower()`, written over the character list so that it can be
evaluated by the kernel. -/
def strLower (s : String) : String :=
  String.mk (s.data.map Char.toLower)

/-- The margin-tier line of `BusinessAdvisor.get_advice`
(advisor.py lines 14-19). -/
def tier_advice (margin : ℚ) : String :=
  if margin < 10 then "- Low margin: Negotiate vendor costs or raise price.\n"
  else if margin < 20 then "- Moderate margin: Look for efficiency improvements.\n"
  else "- Strong margin: Consider investing in growth.\n"

/-- The unconditionally appended part of the advice (advisor.py
lines 21-25): optional competitor tip plus the two closing lines. -/
def advice_tail (context : String) : String :=
  (if strContains (strLower context) "competitor price" then
    "- Differentiate on service, not just price.\n" else "")
  ++ "- Monitor competitor pricing weekly.\n"
  ++ "- Build loyalty programs to reduce churn."

/-- Embeds `BusinessAdvisor.get_advice` (advisor.py lines 8-27).
`float(...)` on a matched group that is not a valid number raises
`ValueError`, modelled by the `Except.error` branch. -/
def get_advice (context : String) : Except String String :=
  match searchMargin context.data with
  | none => Except.ok ("📊 Business Insight:\n" ++ advice_tail context)
  | some g =>
    match pyFloat g with
    | none => Except.error "ValueError: could not convert string to float"
    | some margin =>
      Except.ok ("📊 Business Insight:\n" ++ tier_advice margin ++ advice_tail context)

/-- The margin-tier response of `BusinessAdvisor.chat`
(advisor.py lines 37-42). -/
def tier_chat (margin : ℚ) : String :=
  if margin < 10 then
    "Your profit margin is low. Try renegotiating vendor prices or increasing your selling price."
  else if margin < 20 then
    "Your margin is moderate. Consider operational efficiencies to improve profitability."
  else
    "Your margin is strong — you could invest in growth or marketing."

/-- Embeds `BusinessAdvisor.chat` (advisor.py lines 29-56): keyword routing
over the lower-cased question, margin branch first. -/
def chat (question context : String) : Except String String :=
  let q := strLower question
  if strContains q "margin" then
    match searchMargin context.data with
    | some g =>
      match pyFloat g with
      | some margin => Except.ok (tier_chat margin)
      | none => Except.error "ValueError: could not convert string to float"
    | none => Except.ok "I couldn\u0027t find margin information in the context."
  else if strContains q "competitor" then
    Except.ok "Monitor competitor prices regularly and add value beyond price, like better service or faster delivery."
  else if strContains q "price" then
    Except.ok "Aim to price competitively but maintain your minimum margin for profitability."
  else
    Except.ok "I can help with pricing, margin analysis, and competitor strategies. Could you give me more details?"


/-! ### Claim theorems: pricing policy -/

/-- Claim C1: whenever a decision is produced, its recommendedPrice equals
max(min(basePrice, competitorPrice * 0.95), cost * (1 + ourMinMarginPercent/100)),
with competitorPrice = estimatedCompetitorCost * (1 + competitorMarkupPercent/100);
in particular, when the margin floor is at most the competitive ceiling, the
recommended price equals that ceiling exactly. -/
theorem recommended_price_formula (req : PriceRequest) (base_price : ℚ)
    (h : max (min base_price (req.est_competitor_cost * (1 + req.comp_markup / 100) * 0.95))
        (req.costing * (1 + req.our_min_margin / 100)) ≠ 0) :
    ∃ resp, predict_price req base_price = Except.ok resp ∧
      resp.competitor_price = req.est_competitor_cost * (1 + req.comp_markup / 100) ∧
      resp.recommended_price =
        max (min base_price (req.est_competitor_cost * (1 + req.comp_markup / 100) * 0.95))
          (req.costing * (1 + req.our_min_margin / 100)) ∧
      (req.costing * (1 + req.our_min_margin / 100) ≤
          min base_price (req.est_competitor_cost * (1 + req.comp_markup / 100) * 0.95) →
        resp.recommended_price =
          min base_price (req.est_competitor_cost * (1 + req.comp_markup / 100) * 0.95)) := by
  simp only [predict_price]
  rw [if_neg h]
  exact ⟨_, rfl, rfl, rfl, fun hle => max_eq_left hle⟩

/-- Witness for C1: cost 100, competitor cost 120, markup 25, floor 15 and
base price 160 give recommended price 142.5. -/
theorem recommended_price_formula_witness :
    ∃ resp, predict_price ⟨100, "Low", "In Stock", 0, "Corporate", 120, 25, 15⟩ 160 =
        Except.ok resp ∧ resp.recommended_price = 142.5 := by
  obtain ⟨resp, h1, _, h3, _⟩ :=
    recommended_price_formula ⟨100, "Low", "In Stock", 0, "Corporate", 120, 25, 15⟩ 160
      (by norm_num [min_def, max_def])
  exact ⟨resp, h1, by rw [h3]; norm_num [min_def, max_def]⟩

/-- Claim C2: every decision produced for a request with positive cost has
recommendedPrice at least cost * (1 + ourMinMarginPercent/100), even when the
competitive ceiling lies below that floor. -/
theorem margin_floor_dominance (req : PriceRequest) (base_price : ℚ)
    (resp : PredictResponse) (hc : 0 < req.costing)
    (h : predict_price req base_price = Except.ok resp) :
    req.costing * (1 + req.our_min_margin / 100) ≤ resp.recommended_price := by
  simp only [predict_price] at h
  split at h
  · simp at h
  · injection h with h2
    subst h2
    exact le_max_right _ _

/-- Witness for C2 at the floor-forcing example: the floor 115 wins over
the ceiling 83.6. -/
theorem margin_floor_dominance_witness :
    (100 : ℚ) * (1 + 15 / 100) ≤
      (PredictResponse.mk 90 115 ((115 - 100) / 115 * 100) 88).recommended_price :=
  margin_floor_dominance ⟨100, "Low", "In Stock", 0, "Corporate", 80, 10, 15⟩ 90 _
    (by norm_num) (by norm_num [predict_price, min_def, max_def])

/-- Claim C3 counterexample: at cost 100, floor 15, base price 90,
competitor cost 80, markup 10 the code returns competitorPrice 88 and
recommendedPrice 115 as claimed, but marginPercent (115-100)/115*100 =
300/23 (about 13.04), not the claimed 15. -/
theorem floor_example_margin_not_fifteen :
    predict_price ⟨100, "Low", "In Stock", 0, "Corporate", 80, 10, 15⟩ 90 =
      Except.ok ⟨90, 115, 300 / 23, 88⟩ ∧ (300 / 23 : ℚ) ≠ 15 := by
  constructor
  · norm_num [predict_price, min_def, max_def]
  · norm_num

/-- Claim C3 amended: the example returns competitorPrice 88 and
recommendedPrice 115 (the margin floor), and marginPercent equals
(115 - 100)/115 * 100 = 300/23, the margin measured on price. -/
theorem floor_example_exact_values :
    predict_price ⟨100, "Low", "In Stock", 0, "Corporate", 80, 10, 15⟩ 90 =
      Except.ok ⟨90, 115, (115 - 100) / 115 * 100, 88⟩ ∧
    ((115 : ℚ) - 100) / 115 * 100 = 300 / 23 := by
  constructor
  · norm_num [predict_price, min_def, max_def]
  · norm_num

/-- Claim C4, code evaluation: `get_dummies` on the one-row frame observes a
single category per categorical field and `drop_first=True` removes it, so
the encoded frame holds no indicator column at all, and `reindex` fills every
indicator of the model column list with 0 — in particular a request with
demand level Medium gets 0, not 1, in the Demand_Level_Medium column. -/
theorem single_row_dummies_all_zero :
    (∀ req : PriceRequest, get_dummies_row req =
      [("costing", req.costing), ("Installation_Cost", req.installation_cost),
       ("est_competitor_cost", req.est_competitor_cost)]) ∧
    (align ⟨1500, "Medium", "In Stock", 200, "Corporate", 1200, 25, 15⟩
        sample_feature_columns).lookup "Demand_Level_Medium" = some 0 := by
  constructor
  · intro req
    rfl
  · rfl

/-- Claim C5: every successful decision has a nonzero recommended price and
marginPercent = (recommendedPrice - cost)/recommendedPrice * 100; when the
clamped price is zero the decision fails with the ZeroDivisionError message
instead of returning 0% or infinity. -/
theorem margin_formula_and_zero_division (req : PriceRequest) (base_price : ℚ) :
    (∀ resp, predict_price req base_price = Except.ok resp →
      resp.recommended_price ≠ 0 ∧
      resp.profit_margin_percent =
        (resp.recommended_price - req.costing) / resp.recommended_price * 100) ∧
    (max (min base_price (req.est_competitor_cost * (1 + req.comp_markup / 100) * 0.95))
        (req.costing * (1 + req.our_min_margin / 100)) = 0 →
      predict_price req base_price =
        Except.error "ZeroDivisionError: float division by zero") := by
  constructor
  · intro resp h
    simp only [predict_price] at h
    split at h
    · simp at h
    · next hne =>
      injection h with h2
      subst h2
      exact ⟨hne, rfl⟩
  · intro h0
    simp only [predict_price]
    rw [if_pos h0]

/-- Witness for C5: a zero-cost, zero-price request fails with the division
error, and the floor-forcing example yields a nonzero recommended price. -/
theorem margin_formula_and_zero_division_witness :
    predict_price ⟨0, "Low", "In Stock", 0, "Corporate", 0, 25, 15⟩ 0 =
      Except.error "ZeroDivisionError: float division by zero" ∧
    (PredictResponse.mk 90 115 ((115 - 100) / 115 * 100) 88).recommended_price ≠ 0 := by
  constructor
  · exact (margin_formula_and_zero_division ⟨0, "Low", "In Stock", 0, "Corporate", 0, 25, 15⟩ 0).2
      (by norm_num [min_def, max_def])
  · exact ((margin_formula_and_zero_division
        ⟨100, "Low", "In Stock", 0, "Corporate", 80, 10, 15⟩ 90).1
      ⟨90, 115, (115 - 100) / 115 * 100, 88⟩
      (by norm_num [predict_price, min_def, max_def])).1

/-- Claim C6 counterexample: a request with a negative monetary field is not
rejected; the pricing computation proceeds and returns a full decision. -/
theorem negative_cost_accepted :
    predict_price ⟨-100, "Low", "In Stock", 0, "Corporate", 80, 10, 15⟩ 90 =
      Except.ok ⟨90, 83.6, (83.6 - -100) / 83.6 * 100, 88⟩ := by
  norm_num [predict_price, min_def, max_def]

/-- Claim C6 amended: the pipeline performs no validation of monetary
fields: a request with negative cost still produces a pricing decision
whenever the clamped price is nonzero. -/
theorem no_input_validation (req : PriceRequest) (base_price : ℚ)
    (hneg : req.costing < 0)
    (hnz : max (min base_price (req.est_competitor_cost * (1 + req.comp_markup / 100) * 0.95))
        (req.costing * (1 + req.our_min_margin / 100)) ≠ 0) :
    ∃ resp, predict_price req base_price = Except.ok resp := by
  simp only [predict_price]
  rw [if_neg hnz]
  exact ⟨_, rfl⟩

/-- Witness for the amended C6 at cost -100. -/
theorem no_input_validation_witness :
    ∃ resp, predict_price ⟨-100, "Low", "In Stock", 0, "Corporate", 80, 10, 15⟩ 90 =
      Except.ok resp :=
  no_input_validation ⟨-100, "Low", "In Stock", 0, "Corporate", 80, 10, 15⟩ 90
    (by norm_num) (by norm_num [min_def, max_def])


/-! ### Claim theorems: rule-based advisor -/

/-- Claim C7: for every extractable margin m, the advice and chat margin
responses select the tier by half-open thresholds: m < 10 low,
10 ≤ m < 20 moderate, 20 ≤ m strong; in particular exactly 10 falls in the
moderate tier and exactly 20 in the strong tier. -/
theorem margin_tier_thresholds (q ctx : String) (g : List Char) (m : ℚ)
    (hq : strContains (strLower q) "margin" = true)
    (hs : searchMargin ctx.data = some g)
    (hp : pyFloat g = some m) :
    (m < 10 →
      chat q ctx = Except.ok "Your profit margin is low. Try renegotiating vendor prices or increasing your selling price." ∧
      get_advice ctx = Except.ok ("📊 Business Insight:\n"
        ++ "- Low margin: Negotiate vendor costs or raise price.\n" ++ advice_tail ctx)) ∧
    (10 ≤ m → m < 20 →
      chat q ctx = Except.ok "Your margin is moderate. Consider operational efficiencies to improve profitability." ∧
      get_advice ctx = Except.ok ("📊 Business Insight:\n"
        ++ "- Moderate margin: Look for efficiency improvements.\n" ++ advice_tail ctx)) ∧
    (20 ≤ m →
      chat q ctx = Except.ok "Your margin is strong — you could invest in growth or marketing." ∧
      get_advice ctx = Except.ok ("📊 Business Insight:\n"
        ++ "- Strong margin: Consider investing in growth.\n" ++ advice_tail ctx)) := by
  refine ⟨fun h1 => ?_, fun h1 h2 => ?_, fun h1 => ?_⟩
  · constructor
    · simp [chat, hq, hs, hp, tier_chat, h1]
    · simp [get_advice, hs, hp, tier_advice, h1]
  · have h1n : ¬ m < 10 := not_lt.mpr h1
    constructor
    · simp [chat, hq, hs, hp, tier_chat, h1n, h2]
    · simp [get_advice, hs, hp, tier_advice, h1n, h2]
  · have h1n : ¬ m < 10 := not_lt.mpr (by linarith)
    have h2n : ¬ m < 20 := not_lt.mpr h1
    constructor
    · simp [chat, hq, hs, hp, tier_chat, h1n, h2n]
    · simp [get_advice, hs, hp, tier_advice, h1n, h2n]

/-- Witness for C7 at the boundary margins 10.0 and 20.0. -/
theorem margin_tier_thresholds_witness :
    chat "margin" "Profit margin: 10.0%" =
      Except.ok "Your margin is moderate. Consider operational efficiencies to improve profitability." ∧
    chat "margin" "Profit margin: 20.0%" =
      Except.ok "Your margin is strong — you could invest in growth or marketing." := by
  constructor
  · exact ((margin_tier_thresholds "margin" "Profit margin: 10.0%" "10.0".data 10
      (by decide) (by decide) (by decide)).2.1 (by norm_num) (by norm_num)).1
  · exact ((margin_tier_thresholds "margin" "Profit margin: 20.0%" "20.0".data 20
      (by decide) (by decide) (by decide)).2.2 (by norm_num)).1

/-- Claim C8: the chat routes the lower-cased question through the branches
in priority order margin, competitor, price, fallback: a question containing
"margin" always gets the margin branch (the fixed missing-margin message
when no margin is extractable), "competitor" is only reached when "margin"
is absent, "price" only when both are absent, and the fallback otherwise. -/
theorem chat_priority (q ctx : String) :
    (strContains (strLower q) "margin" = true →
      chat q ctx = chat "margin" ctx ∧
      (searchMargin ctx.data = none →
        chat q ctx = Except.ok "I couldn't find margin information in the context.")) ∧
    (strContains (strLower q) "margin" = false →
      strContains (strLower q) "competitor" = true →
      chat q ctx = Except.ok "Monitor competitor prices regularly and add value beyond price, like better service or faster delivery.") ∧
    (strContains (strLower q) "margin" = false →
      strContains (strLower q) "competitor" = false →
      strContains (strLower q) "price" = true →
      chat q ctx = Except.ok "Aim to price competitively but maintain your minimum margin for profitability.") ∧
    (strContains (strLower q) "margin" = false →
      strContains (strLower q) "competitor" = false →
      strContains (strLower q) "price" = false →
      chat q ctx = Except.ok "I can help with pricing, margin analysis, and competitor strategies. Could you give me more details?") := by
  have hm : strContains (strLower "margin") "margin" = true := by decide
  refine ⟨fun h1 => ⟨?_, fun hn => ?_⟩, fun h1 h2 => ?_, fun h1 h2 h3 => ?_, fun h1 h2 h3 => ?_⟩
  · simp [chat, h1, hm]
  · simp [chat, h1, hn]
  · simp [chat, h1, h2]
  · simp [chat, h1, h2, h3]
  · simp [chat, h1, h2, h3]

/-- Witness for C8: a question holding both "margin" and "competitor" is
routed to the margin branch and, with an empty context, receives the fixed
missing-margin message. -/
theorem chat_priority_witness :
    chat "how does my margin compare to the competitor?" "" =
      Except.ok "I couldn't find margin information in the context." :=
  ((chat_priority "how does my margin compare to the competitor?" "").1 (by decide)).2 rfl

/-- Claim C9 counterexample: on the context "Profit margin: ." the pattern
matches the group ".", and Python float(".") raises ValueError, so the
advice operation does not return normally. -/
theorem advice_raises_on_unparsable_match :
    (get_advice "Profit margin: .").isOk = false := rfl

/-- Claim C9 amended: for every context whose margin match, when present,
parses as a number, the advice returns normally, starts with the heading
line, ends with the two closing recommendation lines, and omits the
margin-tier line when there is no match. -/
theorem get_advice_structure (ctx : String)
    (h : ∀ g, searchMargin ctx.data = some g → (pyFloat g).isSome = true) :
    ∃ s, get_advice ctx = Except.ok s ∧
      "📊 Business Insight:\n".data <+: s.data ∧
      ("- Monitor competitor pricing weekly.\n" ++
        "- Build loyalty programs to reduce churn.").data <:+ s.data ∧
      (searchMargin ctx.data = none →
        s = "📊 Business Insight:\n" ++ advice_tail ctx) := by
  cases hsm : searchMargin ctx.data with
  | none =>
    refine ⟨"📊 Business Insight:\n" ++ advice_tail ctx, by simp [get_advice, hsm],
      ⟨(advice_tail ctx).data, by simp⟩, ?_, fun _ => rfl⟩
    refine ⟨"📊 Business Insight:\n".data ++
      (if strContains (strLower ctx) "competitor price" then
        ("- Differentiate on service, not just price.\n" : String) else "").data, ?_⟩
    simp [advice_tail, List.append_assoc]
  | some g =>
    have hg := h g hsm
    cases hpf : pyFloat g with
    | none => rw [hpf] at hg; simp at hg
    | some m =>
      refine ⟨"📊 Business Insight:\n" ++ tier_advice m ++ advice_tail ctx,
        by simp [get_advice, hsm, hpf], ?_, ?_,
        fun hn => Option.noConfusion hn⟩
      · exact ⟨(tier_advice m).data ++ (advice_tail ctx).data, by simp [List.append_assoc]⟩
      · refine ⟨"📊 Business Insight:\n".data ++ (tier_advice m).data ++
          (if strContains (strLower ctx) "competitor price" then
            ("- Differentiate on service, not just price.\n" : String) else "").data, ?_⟩
        simp [advice_tail, List.append_assoc]

/-- Witness for the amended C9 on the empty context. -/
theorem get_advice_structure_witness :
    ∃ s, get_advice "" = Except.ok s ∧
      "📊 Business Insight:\n".data <+: s.data ∧
      ("- Monitor competitor pricing weekly.\n" ++
        "- Build loyalty programs to reduce churn.").data <:+ s.data ∧
      (searchMargin "".data = none → s = "📊 Business Insight:\n" ++ advice_tail "") :=
  get_advice_structure "" (fun g hg => by
    rw [show searchMargin "".data = none from rfl] at hg
    exact Option.noConfusion hg)

/-- Claim C10 counterexample: on the context "Profit margin: -25.0%" the
pattern finds no match at all (the minus sign is not in the character
class), so nothing is extracted and the chat margin branch answers with the
missing-margin message, not the strong-tier text for 25.0. -/
theorem negative_margin_not_extracted :
    searchMargin "Profit margin: -25.0%".data = none ∧
    chat "What is my margin?" "Profit margin: -25.0%" =
      Except.ok "I couldn't find margin information in the context." ∧
    chat "What is my margin?" "Profit margin: -25.0%" ≠
      Except.ok "Your margin is strong — you could invest in growth or marketing." := by
  refine ⟨by decide, rfl, fun h => ?_⟩
  have h0 : chat "What is my margin?" "Profit margin: -25.0%" =
      Except.ok "I couldn't find margin information in the context." := rfl
  injection h0.symm.trans h with h3
  exact absurd h3 (by decide)

/-- Claim C10 amended: the pattern requires a digit or dot directly after
the label, so a context reporting the negative margin -25.0% yields no
extraction: every margin question gets the missing-margin chat message and
the advice omits the margin-tier line. -/
theorem negative_margin_treated_as_missing (q : String)
    (hq : strContains (strLower q) "margin" = true) :
    chat q "Profit margin: -25.0%" =
      Except.ok "I couldn't find margin information in the context." ∧
    get_advice "Profit margin: -25.0%" =
      Except.ok ("📊 Business Insight:\n" ++ advice_tail "Profit margin: -25.0%") := by
  have hn : searchMargin "Profit margin: -25.0%".data = none := by decide
  exact ⟨by simp [chat, hq, hn], rfl⟩

/-- Witness for the amended C10. -/
theorem negative_margin_treated_as_missing_witness :
    chat "What about margin?" "Profit margin: -25.0%" =
      Except.ok "I couldn't find margin information in the context." :=
  (negative_margin_treated_as_missing "What about margin?" (by decide)).1

end AIPricing
